import Mathlib

/-!
Shallow embedding of the session / pagination / favorites / remote-client
logic of `met_explorer_api.py` (a Streamlit app for browsing the MET
collection API), together with theorems settling the specification claims.

Python machine-level details are modelled as follows: strings are `String`,
ints are `Nat` (object ids are nonnegative), Python `None` is `Option.none`,
a JSON body is a record of `Option` fields, `requests` failures are an
`Except RemoteError` result, and the Streamlit session state is an explicit
`AppState` record threaded through step functions.
-/

namespace MetExplorer

/-- Error raised by a remote call: network failure, timeout, or a
non-success HTTP status (`raise_for_status`). -/
inductive RemoteError where
  | network : RemoteError
  | timeout : RemoteError
  | httpStatus : Nat → RemoteError
deriving DecidableEq

/-- The params dict sent to the MET search endpoint: `{"q": q}` plus an
optional `"hasImages"` entry (source lines 46-50). -/
structure SearchRequest where
  q : String
  hasImages : Option String
deriving DecidableEq

/-- JSON body of a successful search response: an optional `objectIDs`
array (`none` models both an absent field and JSON `null`). -/
structure SearchBody where
  objectIDs : Option (List Nat)
deriving DecidableEq

/-- Python `xs or []` on an optional list value (`js.get("objectIDs") or []`,
source line 54): `None` and the empty list are falsy. -/
def pyOrList (x : Option (List Nat)) : List Nat :=
  match x with
  | none => []
  | some l => if l.isEmpty then [] else l

/-- Python `x or d` on an optional string (`meta.get(...) or d`): `None`
and the empty string are falsy. -/
def pyOrStr (x : Option String) (d : String) : String :=
  match x with
  | none => d
  | some s => if s = "" then d else s

/-- The params dict built for a given query text and image filter
(source lines 46-50): `{"q": q}`, plus `hasImages = "true"` when the
filter is `some true` and `hasImages = "false"` when it is `some false`. -/
def searchParams (q : String) (has_images : Option Bool) : SearchRequest :=
  { q := q
    hasImages :=
      match has_images with
      | some true => some "true"
      | some false => some "false"
      | none => none }

/-- `met_search` (source lines 42-54), with the remote HTTP layer abstracted
as a function from the request params to a response. Returns the result
together with the list of network requests actually issued, so that
"no network call" is expressible. -/
def met_search (remote : SearchRequest → Except RemoteError SearchBody)
    (q : String) (has_images : Option Bool) :
    Except RemoteError (List Nat) × List SearchRequest :=
  if q = "" then (Except.ok [], [])
  else
    let req := searchParams q has_images
    match remote req with
    | Except.error e => (Except.error e, [req])
    | Except.ok body => (Except.ok (pyOrList body.objectIDs), [req])

/-- The object-detail record `met_get_object` returns (`r.json()`): the
fields the app reads, each optional since the remote JSON may omit it. -/
structure ObjMeta where
  title : Option String
  artistDisplayName : Option String
  primaryImageSmall : Option String
  primaryImage : Option String
  objectDate : Option String
  medium : Option String
  department : Option String
  objectURL : Option String
deriving DecidableEq

/-- `met_get_object` (source lines 56-60): issues the GET, raises on a
non-success status (modelled by the `Except` result of `remote`), and
returns the parsed JSON body unchanged. -/
def met_get_object (remote : Nat → Except RemoteError ObjMeta)
    (object_id : Nat) : Except RemoteError ObjMeta :=
  remote object_id

/-- Gallery title default: `meta.get("title") or "Untitled"` (line 144). -/
def galleryTitle (m : ObjMeta) : String := pyOrStr m.title "Untitled"

/-- Gallery artist default: `meta.get("artistDisplayName") or "Unknown"`
(line 145). -/
def galleryArtist (m : ObjMeta) : String := pyOrStr m.artistDisplayName "Unknown"

/-- Gallery image URL default:
`meta.get("primaryImageSmall") or meta.get("primaryImage") or ""` (line 146). -/
def galleryImgUrl (m : ObjMeta) : String :=
  pyOrStr m.primaryImageSmall (pyOrStr m.primaryImage "")

/-- Modal date default: `meta.get("objectDate") or "Unknown"` (line 168). -/
def modalDate (m : ObjMeta) : String := pyOrStr m.objectDate "Unknown"

/-- The pagination-relevant Streamlit session state: `st.session_state.page`,
`st.session_state.last_query`, `st.session_state.per_page`
(source lines 18-23). -/
structure AppState where
  page : Nat
  last_query : String
  per_page : Nat
deriving DecidableEq

/-- Session defaults (source lines 16-23): page 1, empty last query,
12 results per page. -/
def initState : AppState := { page := 1, last_query := "", per_page := 12 }

/-- `total_pages = (total + per - 1) // per` (source line 112). -/
def computeTotalPages (total per : Nat) : Nat := (total + per - 1) / per

/-- `page_ids = ids[start:end]` with `start = (page-1)*per` and
`end = min(start + per, total)` (source lines 120-122). Python's
`ids[start:end]` is `take (end - start)` after `drop start`. -/
def pageSlice (ids : List Nat) (per page : Nat) : List Nat :=
  let start := (page - 1) * per
  let stop := min (start + per) ids.length
  (ids.drop start).take (stop - start)

/-- The query-change reset (source lines 114-118): if the query text differs
from `last_query`, set `page` to 1 and record the new text; otherwise
leave the state unchanged. -/
def onQueryChanged (query : String) (st : AppState) : AppState :=
  if query ≠ st.last_query then { st with page := 1, last_query := query }
  else st

/-- Lines 110-122 of one script run: apply the query-change reset, then
compute the visible slice from the (possibly reset) page. Returns the new
state and the slice. -/
def runSearch (query : String) (ids : List Nat) (st : AppState) :
    AppState × List Nat :=
  let st1 := onQueryChanged query st
  (st1, pageSlice ids st1.per_page st1.page)

/-- The "Previous" button handler (source lines 126-127): decrement only
when the page is above 1. -/
def prevPage (page : Nat) : Nat := if 1 < page then page - 1 else page

/-- The "Next" button handler (source lines 129-130): increment only when
the page is below the total page count. -/
def nextPage (page total_pages : Nat) : Nat :=
  if page < total_pages then page + 1 else page

/-- A search query as the spec's data model describes it: text plus the
image-filter tri-state (`some true` = require images, `none` = no filter;
the helper also accepts `some false`). -/
structure SearchQuery where
  text : String
  imageFilter : Option Bool
deriving DecidableEq

/-- One full search invocation as driven by the script (lines 93-122):
stop with the state unchanged when the query text is empty (line 93-95),
when the search raises (lines 99-103), or when it returns no ids
(lines 105-107); otherwise run the pagination block. -/
def searchInvocation (sq : SearchQuery)
    (remote : SearchRequest → Except RemoteError SearchBody)
    (st : AppState) : AppState × List Nat :=
  if sq.text = "" then (st, [])
  else
    match (met_search remote sq.text sq.imageFilter).1 with
    | Except.error _ => (st, [])
    | Except.ok ids => if ids.isEmpty then (st, []) else runSearch sq.text ids st

/-- One Streamlit script rerun, as it affects the pagination state:
the sidebar sets `per_page` (line 31); an empty query, a failed search or
an empty result stop the script (lines 93-107); otherwise the query-change
reset runs (lines 114-118) and then at most one of the Previous/Next
button handlers fires (lines 124-130). `btn = some false` is a Previous
click, `some true` a Next click, `none` no navigation click. -/
def scriptRun (q : String) (res : Except RemoteError (List Nat)) (per : Nat)
    (btn : Option Bool) (st : AppState) : AppState :=
  let st0 := { st with per_page := per }
  if q = "" then st0
  else
    match res with
    | Except.error _ => st0
    | Except.ok ids =>
      if ids.isEmpty then st0
      else
        let st1 := onQueryChanged q st0
        let total_pages := computeTotalPages ids.length st1.per_page
        match btn with
        | none => st1
        | some false => { st1 with page := prevPage st1.page }
        | some true => { st1 with page := nextPage st1.page total_pages }

/-- States reachable from the session defaults by script reruns. -/
inductive Reachable : AppState → Prop where
  | init : Reachable initState
  | step (q : String) (res : Except RemoteError (List Nat)) (per : Nat)
      (btn : Option Bool) {st : AppState} (h : Reachable st) :
      Reachable (scriptRun q res per btn st)

/-- The favorites store `st.session_state.favorites` (line 16): a Python
dict from object id to metadata, modelled as an insertion-ordered
association list with unique keys. -/
abbrev Favorites := List (Nat × ObjMeta)

/-- `oid in st.session_state.favorites` (line 175). -/
def hasFavorite (favs : Favorites) (oid : Nat) : Bool :=
  favs.any (fun e => e.1 == oid)

/-- The favorite button handler (lines 175-181): `pop(oid, None)` when the
id is present, `favorites[oid] = meta` (a new key goes to the end of a
Python dict) when it is absent. -/
def toggleFavorite (favs : Favorites) (oid : Nat) (meta : ObjMeta) : Favorites :=
  if hasFavorite favs oid then favs.filter (fun e => e.1 != oid)
  else favs ++ [(oid, meta)]

/-- `favorites[k]` as an optional value: the metadata stored under `k`. -/
def favLookup (favs : Favorites) (k : Nat) : Option ObjMeta :=
  List.lookup k favs

/-- A JSON object with string-valued fields, which is all the metadata
fields the app reads and exports. -/
abbrev JsonObj := List (String × String)

/-- Hex digit character for `\uXXXX` escapes. -/
def hexDigit (n : Nat) : Char :=
  if n < 10 then Char.ofNat (48 + n) else Char.ofNat (87 + n)

/-- Four-digit lowercase hex rendering of a code point below 0x10000. -/
def hex4 (n : Nat) : String :=
  String.mk [hexDigit (n / 4096 % 16), hexDigit (n / 256 % 16),
    hexDigit (n / 16 % 16), hexDigit (n % 16)]

/-- JSON string escaping as `json.dumps` performs it for the characters the
app's ASCII metadata can need: backslash, quote, and control characters. -/
def jsEscapeChar (c : Char) : String :=
  if c = '\\' then "\\\\"
  else if c = '"' then "\\\""
  else if c = '\n' then "\\n"
  else if c = '\t' then "\\t"
  else if c = '\r' then "\\r"
  else if c.toNat < 32 then "\\u" ++ hex4 c.toNat
  else String.singleton c

/-- Escape every character of a string for JSON output. -/
def jsEscape (s : String) : String :=
  String.join (s.data.map jsEscapeChar)

/-- A JSON string literal: escaped content between double quotes. -/
def quoteStr (s : String) : String := "\"" ++ jsEscape s ++ "\""

/-- `indent=2` indentation for nesting level `n`: `2 * n` spaces. -/
def indentStr (n : Nat) : String := String.join (List.replicate n "  ")

/-- `json.dumps` of one object at nesting level `lvl` with `indent=2`:
two bare braces when empty, otherwise one `"key": "value"` line per field,
separated by `,` plus a newline, indented one level deeper, with the
closing brace back at level `lvl`. -/
def dumpObj (lvl : Nat) (o : JsonObj) : String :=
  match o with
  | [] => "\x7b\x7d"
  | _ =>
    "\x7b\n"
      ++ String.intercalate ",\n"
        (o.map (fun kv => indentStr (lvl + 1) ++ quoteStr kv.1 ++ ": " ++ quoteStr kv.2))
      ++ "\n" ++ indentStr lvl ++ "\x7d"

/-- `json.dumps` of an array of objects at nesting level `lvl` with
`indent=2`: `[]` when empty, otherwise one element per line, indented one
level deeper, separated by `,` plus a newline. -/
def dumpArr (lvl : Nat) (l : List JsonObj) : String :=
  match l with
  | [] => "[]"
  | _ =>
    "[\n"
      ++ String.intercalate ",\n"
        (l.map (fun o => indentStr (lvl + 1) ++ dumpObj (lvl + 1) o))
      ++ "\n" ++ indentStr lvl ++ "]"

/-- `json.dumps(vals, indent=2)` for a top-level list of records (line 86). -/
def json_dumps_indent2 (l : List JsonObj) : String := dumpArr 0 l

/-- The JSON object a stored metadata record denotes: its present fields,
in the record's field order (an absent field is simply not a key of the
Python dict). -/
def metaFields (m : ObjMeta) : JsonObj :=
  ([("title", m.title), ("artistDisplayName", m.artistDisplayName),
    ("primaryImageSmall", m.primaryImageSmall), ("primaryImage", m.primaryImage),
    ("objectDate", m.objectDate), ("medium", m.medium),
    ("department", m.department), ("objectURL", m.objectURL)]).filterMap
    (fun kv => kv.2.map (fun v => (kv.1, v)))

/-- `list(st.session_state.favorites.values())` (line 86): the stored
metadata values in the dict's iteration (= insertion) order. -/
def favoritesValues (favs : Favorites) : List ObjMeta := favs.map Prod.snd

/-- The export handler (lines 85-87):
`json.dumps(list(st.session_state.favorites.values()), indent=2)`. -/
def exportFavoritesJSON (favs : Favorites) : String :=
  json_dumps_indent2 ((favoritesValues favs).map metaFields)

/-- A metadata record with every optional field absent, as the remote API
may return. -/
def blankMeta : ObjMeta :=
  { title := none, artistDisplayName := none, primaryImageSmall := none
    primaryImage := none, objectDate := none, medium := none
    department := none, objectURL := none }

/-- A concrete stored metadata record used in witnesses. -/
def sampleMeta : ObjMeta :=
  { blankMeta with title := some "Irises"
                   artistDisplayName := some "Vincent van Gogh" }

/-- A concrete metadata record (title "A") used in the favorites
counterexample. -/
def metaA : ObjMeta := { blankMeta with title := some "A" }

/-- A concrete metadata record (title "B") used in the favorites
counterexample. -/
def metaB : ObjMeta := { blankMeta with title := some "B" }

/-- A stub remote search endpoint that always returns 29 object ids. -/
def demoRemote : SearchRequest → Except RemoteError SearchBody :=
  fun _ => Except.ok { objectIDs := some (List.range 29) }

/-- The session state after searching ("cat", require-images) from the
initial state and then clicking Next: page 2 of the "cat" results. -/
def staleFilterState : AppState :=
  scriptRun "cat" (Except.ok (List.range 29)) 12 (some true)
    (searchInvocation { text := "cat", imageFilter := some true } demoRemote
      initState).1

/-! ### Helper lemmas -/

/-- Python `x or []` on an optional list is `Option.getD` with default `[]`. -/
theorem pyOrList_eq_getD (x : Option (List Nat)) : pyOrList x = x.getD [] := by
  cases x with
  | none => rfl
  | some l => cases l <;> rfl

/-- Joining the slices of pages `1..k` yields the first `min (k*per) N`
elements of the id list. -/
theorem pages_join (ids : List Nat) (per : Nat) :
    ∀ k, ((List.range k).map (fun i => pageSlice ids per (i + 1))).flatten
      = ids.take (min (k * per) ids.length) := by
  intro k
  induction k with
  | zero => simp
  | succ k ih =>
    rw [List.range_succ, List.map_append, List.flatten_append, ih]
    simp only [List.map_cons, List.map_nil, List.flatten_cons, List.flatten_nil,
      List.append_nil]
    simp only [pageSlice, Nat.add_sub_cancel]
    have hs : (k + 1) * per = k * per + per := Nat.succ_mul k per
    by_cases h : k * per ≤ ids.length
    · rw [min_eq_left h, ← List.take_add]
      congr 1
      omega
    · push_neg at h
      rw [min_eq_right h.le, List.drop_eq_nil_of_le h.le, List.take_nil,
        List.append_nil]
      congr 1
      omega

/-- The result-set size never exceeds `total_pages * per`. -/
theorem le_totalPages_mul (N per : Nat) (h : 0 < per) :
    N ≤ computeTotalPages N per * per := by
  unfold computeTotalPages
  have e1 := Nat.div_add_mod (N + per - 1) per
  have e2 := Nat.mod_lt (N + per - 1) h
  have e3 : (N + per - 1) / per * per = per * ((N + per - 1) / per) :=
    Nat.mul_comm _ _
  omega

/-- Lookup on the empty store yields nothing. -/
theorem favLookup_nil (k : Nat) : favLookup [] k = none := rfl

/-- Lookup on a cons cell: hit the head key or continue in the tail. -/
theorem favLookup_cons (ek : Nat) (ev : ObjMeta) (t : Favorites) (k : Nat) :
    favLookup ((ek, ev) :: t) k = if k = ek then some ev else favLookup t k := by
  by_cases h : k = ek
  · simp [favLookup, List.lookup, h]
  · have h2 : (k == ek) = false := by simp [h]
    simp [favLookup, List.lookup, h2, h]

/-- Looking up a key other than the removed one is unchanged by the
removal filter. -/
theorem favLookup_filter_ne (favs : Favorites) (oid k : Nat) (hk : k ≠ oid) :
    favLookup (favs.filter (fun e => e.1 != oid)) k = favLookup favs k := by
  induction favs with
  | nil => rfl
  | cons e t ih =>
    obtain ⟨ek, ev⟩ := e
    by_cases he : ek = oid
    · have hstep : List.filter (fun e => e.1 != oid) ((ek, ev) :: t)
          = List.filter (fun e => e.1 != oid) t := by
        simp [List.filter_cons, he]
      have hke : k ≠ ek := fun hh => hk (hh.trans he)
      rw [hstep, favLookup_cons, if_neg hke]
      exact ih
    · have hstep : List.filter (fun e => e.1 != oid) ((ek, ev) :: t)
          = (ek, ev) :: List.filter (fun e => e.1 != oid) t := by
        simp [List.filter_cons, he]
      rw [hstep, favLookup_cons, favLookup_cons]
      by_cases hke : k = ek
      · rw [if_pos hke, if_pos hke]
      · rw [if_neg hke, if_neg hke]
        exact ih

/-- After the removal filter, the key is no longer present. -/
theorem hasFavorite_filter_self (favs : Favorites) (oid : Nat) :
    hasFavorite (favs.filter (fun e => e.1 != oid)) oid = false := by
  simp only [hasFavorite, List.any_eq_false]
  intro e he
  rw [List.mem_filter] at he
  simpa using he.2

/-- Appending a fresh entry makes its key look up to the new value. -/
theorem favLookup_append_self (l : Favorites) (oid : Nat) (m : ObjMeta)
    (h : ∀ e ∈ l, e.1 ≠ oid) : favLookup (l ++ [(oid, m)]) oid = some m := by
  induction l with
  | nil => simp [favLookup_cons, favLookup_nil]
  | cons e t ih =>
    obtain ⟨ek, ev⟩ := e
    have he : ek ≠ oid := h (ek, ev) (List.mem_cons_self _ _)
    rw [List.cons_append, favLookup_cons, if_neg (fun hh => he hh.symm)]
    exact ih (fun x hx => h x (List.mem_cons_of_mem _ hx))

/-- Appending an entry with a different key does not change a lookup. -/
theorem favLookup_append_ne (l : Favorites) (oid k : Nat) (m : ObjMeta)
    (hk : k ≠ oid) : favLookup (l ++ [(oid, m)]) k = favLookup l k := by
  induction l with
  | nil => simp [favLookup_cons, favLookup_nil, hk]
  | cons e t ih =>
    obtain ⟨ek, ev⟩ := e
    rw [List.cons_append, favLookup_cons, favLookup_cons]
    by_cases hke : k = ek
    · rw [if_pos hke, if_pos hke]
    · rw [if_neg hke, if_neg hke]
      exact ih

/-- A successful lookup means the id is in the store. -/
theorem hasFavorite_of_lookup (favs : Favorites) (oid : Nat) (m : ObjMeta) :
    favLookup favs oid = some m → hasFavorite favs oid = true := by
  induction favs with
  | nil =>
    intro h
    simp [favLookup_nil] at h
  | cons e t ih =>
    obtain ⟨ek, ev⟩ := e
    intro h
    rw [favLookup_cons] at h
    by_cases hke : oid = ek
    · simp [hasFavorite, List.any_cons, hke]
    · rw [if_neg hke] at h
      have h2 := ih h
      unfold hasFavorite at h2 ⊢
      rw [List.any_cons, h2]
      simp

/-! ### Claim theorems -/

/-- Claim C1 (amended): the pagination reset (lines 114-118) is keyed on
the query text alone, not on the full (text, image-filter) search query:
when the text differs from `last_query` the state is updated to page 1
with the new text recorded, and the reset takes effect before the visible
slice is computed (the slice is the page-1 slice); when the text equals
`last_query` the state is unchanged and the slice uses the current page. -/
theorem C1_reset_on_text_change (q : String) (ids : List Nat) (st : AppState) :
    (q ≠ st.last_query →
      (runSearch q ids st).1 = { st with page := 1, last_query := q } ∧
      (runSearch q ids st).2 = pageSlice ids st.per_page 1) ∧
    (q = st.last_query →
      runSearch q ids st = (st, pageSlice ids st.per_page st.page)) := by
  constructor
  · intro h
    constructor <;> simp [runSearch, onQueryChanged, h]
  · intro h
    simp [runSearch, onQueryChanged, h]

/-- Witness for C1: searching "cat" from the initial state (whose
`last_query` is empty) resets to page 1 and slices page 1. -/
theorem C1_witness :
    ("cat" ≠ initState.last_query) ∧
    (runSearch "cat" [7, 8] initState).1
      = { initState with page := 1, last_query := "cat" } ∧
    (runSearch "cat" [7, 8] initState).2 = pageSlice [7, 8] initState.per_page 1 :=
  have h := (C1_reset_on_text_change "cat" [7, 8] initState).1 (by decide)
  ⟨by decide, h.1, h.2⟩

/-- Counterexample to C1 as stated: the claim takes the identity of a
`SearchQuery` to comprise both the text and the image-filter tri-state,
so changing only the filter gives a different active query and should
reset the page to 1. The code compares only the text (line 115): after
searching ("cat", require-images), navigating to page 2, and then
searching ("cat", no-filter) — a different `SearchQuery` — the page
stays at 2, not 1. -/
theorem C1_counterexample :
    (({ text := "cat", imageFilter := none } : SearchQuery)
        ≠ { text := "cat", imageFilter := some true }) ∧
    staleFilterState.last_query = "cat" ∧
    staleFilterState.page = 2 ∧
    (searchInvocation { text := "cat", imageFilter := none } demoRemote
        staleFilterState).1.page = 2 ∧
    (searchInvocation { text := "cat", imageFilter := none } demoRemote
        staleFilterState).1.page ≠ 1 := by
  refine ⟨by decide, by decide, by decide, by decide, by decide⟩

/-- Claim C3: for a valid page `p ∈ [1, totalPages]`, the visible slice is
`ids[(p-1)*P : min(p*P, N)]`, its length is `min(P, N-(p-1)*P)`, and the
slices of pages `1..totalPages` concatenate back to the whole result list
in order (no overlap, no gap). -/
theorem C3_slice_shape_and_partition (ids : List Nat) (per p : Nat)
    (hper : 0 < per) (hp1 : 1 ≤ p)
    (hp2 : p ≤ computeTotalPages ids.length per) :
    pageSlice ids per p
      = (ids.drop ((p - 1) * per)).take
          (min (p * per) ids.length - (p - 1) * per) ∧
    (pageSlice ids per p).length = min per (ids.length - (p - 1) * per) ∧
    ((List.range (computeTotalPages ids.length per)).map
        (fun i => pageSlice ids per (i + 1))).flatten = ids := by
  have hpp : (p - 1) * per + per = p * per := by
    have h1 : (p - 1) * per = p * per - per := by rw [Nat.sub_mul, one_mul]
    have h2 : per ≤ p * per := Nat.le_mul_of_pos_left per hp1
    omega
  refine ⟨?_, ?_, ?_⟩
  · simp only [pageSlice]
    rw [hpp]
  · simp only [pageSlice, List.length_take, List.length_drop]
    omega
  · rw [pages_join ids per,
      min_eq_right (le_totalPages_mul ids.length per hper), List.take_length]

/-- Witness for C3: 29 results, 12 per page, page 3 (the last) has
`min 12 (29 - 24) = 5` entries. -/
theorem C3_witness :
    (0 < 12 ∧ 1 ≤ 3 ∧ 3 ≤ computeTotalPages (List.range 29).length 12) ∧
    (pageSlice (List.range 29) 12 3).length
      = min 12 ((List.range 29).length - (3 - 1) * 12) :=
  ⟨⟨by decide, by decide, by decide⟩,
    (C3_slice_shape_and_partition (List.range 29) 12 3
      (by decide) (by decide) (by decide)).2.1⟩

/-- Claim C5 (amended): the toggle handler (lines 175-181) appends the
entry when the id is absent and removes the entry when it is present;
applying it twice returns the store to a state denoting the same
id-to-metadata mapping as the original — exactly the original list when
the id was absent, and, when the id was present, provided the metadata
passed equals the stored metadata (a second toggle re-inserts the id with
the metadata argument, so a different record would replace the stored
one). -/
theorem C5_toggle_roundtrip (favs : Favorites) (oid : Nat) (m : ObjMeta) :
    (hasFavorite favs oid = false →
      toggleFavorite favs oid m = favs ++ [(oid, m)] ∧
      toggleFavorite (toggleFavorite favs oid m) oid m = favs) ∧
    (hasFavorite favs oid = true →
      hasFavorite (toggleFavorite favs oid m) oid = false ∧
      ∀ k, k ≠ oid →
        favLookup (toggleFavorite favs oid m) k = favLookup favs k) ∧
    (favLookup favs oid = some m →
      ∀ k, favLookup (toggleFavorite (toggleFavorite favs oid m) oid m) k
        = favLookup favs k) := by
  refine ⟨?_, ?_, ?_⟩
  · intro h
    have hall : ∀ e ∈ favs, (e.1 == oid) = false := by
      simp only [hasFavorite, List.any_eq_false] at h
      intro e he
      simpa using h e he
    have t1 : toggleFavorite favs oid m = favs ++ [(oid, m)] := by
      simp [toggleFavorite, h]
    have h2 : hasFavorite (favs ++ [(oid, m)]) oid = true := by
      simp [hasFavorite]
    have h3 : favs.filter (fun e => e.1 != oid) = favs := by
      apply List.filter_eq_self.mpr
      intro e he
      simpa using hall e he
    refine ⟨t1, ?_⟩
    rw [t1]
    simp only [toggleFavorite, h2, if_true]
    rw [List.filter_append, h3]
    simp
  · intro h
    refine ⟨?_, ?_⟩
    · simp only [toggleFavorite, h, if_true]
      exact hasFavorite_filter_self favs oid
    · intro k hk
      simp only [toggleFavorite, h, if_true]
      exact favLookup_filter_ne favs oid k hk
  · intro hm k
    have h : hasFavorite favs oid = true := hasFavorite_of_lookup favs oid m hm
    have ht1 : toggleFavorite favs oid m = favs.filter (fun e => e.1 != oid) := by
      simp [toggleFavorite, h]
    have ht2 : toggleFavorite (favs.filter (fun e => e.1 != oid)) oid m
        = favs.filter (fun e => e.1 != oid) ++ [(oid, m)] := by
      simp [toggleFavorite, hasFavorite_filter_self favs oid]
    rw [ht1, ht2]
    by_cases hko : k = oid
    · subst hko
      have h3 : ∀ e ∈ favs.filter (fun e => e.1 != k), e.1 ≠ k := by
        intro e he
        rw [List.mem_filter] at he
        simpa using he.2
      rw [hm]
      exact favLookup_append_self _ k m h3
    · rw [favLookup_append_ne _ _ _ _ hko]
      exact favLookup_filter_ne favs oid k hko

/-- Witness for C5: with the store `[(7, metaA)]`, toggling id 7 removes
it, and toggling twice with the stored metadata restores the mapping. -/
theorem C5_witness :
    hasFavorite [(7, metaA)] 7 = true ∧
    hasFavorite (toggleFavorite [(7, metaA)] 7 metaA) 7 = false ∧
    favLookup (toggleFavorite (toggleFavorite [(7, metaA)] 7 metaA) 7 metaA) 7
      = favLookup [(7, metaA)] 7 :=
  ⟨by decide,
    ((C5_toggle_roundtrip [(7, metaA)] 7 metaA).2.1 (by decide)).1,
    (C5_toggle_roundtrip [(7, metaA)] 7 metaA).2.2 (by decide) 7⟩

/-- Counterexample to C5 as stated: the claim quantifies over every
metadata record, but toggling an id that is stored with `metaA` twice
with a different record `metaB` leaves the store mapping the id to
`metaB`, not its original state. -/
theorem C5_counterexample :
    metaB ≠ metaA ∧
    favLookup [(7, metaA)] 7 = some metaA ∧
    favLookup (toggleFavorite (toggleFavorite [(7, metaA)] 7 metaB) 7 metaB) 7
      = some metaB := by
  refine ⟨by decide, by decide, by decide⟩

/-- Claim C2: for every page size `P > 0` and result-set size `N ≥ 0`, the
`total_pages` computed on source line 112 equals `⌈N / P⌉`, and equals 0
when `N = 0`. -/
theorem C2_total_pages_is_ceil (N P : Nat) (hP : 0 < P) :
    computeTotalPages N P = ⌈(N : ℚ) / (P : ℚ)⌉₊ ∧ computeTotalPages 0 P = 0 := by
  have hzero : computeTotalPages 0 P = 0 := by
    unfold computeTotalPages
    exact Nat.div_eq_of_lt (by omega)
  refine ⟨?_, hzero⟩
  rcases Nat.eq_zero_or_pos N with hN | hN
  · subst hN
    rw [hzero, Nat.cast_zero, zero_div, Nat.ceil_zero]
  · unfold computeTotalPages
    set k := (N + P - 1) / P with hk
    have e1 : P * k + (N + P - 1) % P = N + P - 1 := Nat.div_add_mod _ _
    have e2 : (N + P - 1) % P < P := Nat.mod_lt _ hP
    have hk1 : N ≤ P * k := by omega
    have hk2 : P * k ≤ N + P - 1 := by omega
    have hk0 : k ≠ 0 := by
      intro h
      rw [h, Nat.mul_zero] at hk1
      omega
    have hPQ : (0 : ℚ) < (P : ℚ) := by exact_mod_cast hP
    symm
    rw [Nat.ceil_eq_iff hk0]
    constructor
    · rw [lt_div_iff₀ hPQ]
      have e3 : (k - 1) * P < N := by
        have e4 : (k - 1) * P = k * P - P := by rw [Nat.sub_mul, one_mul]
        have e5 : k * P = P * k := Nat.mul_comm _ _
        omega
      exact_mod_cast e3
    · rw [div_le_iff₀ hPQ]
      calc (N : ℚ) ≤ ((P * k : ℕ) : ℚ) := by exact_mod_cast hk1
        _ = (k : ℚ) * (P : ℚ) := by push_cast; ring

/-- Witness for C2: 29 results at 12 per page give `⌈29/12⌉ = 3` pages. -/
theorem C2_witness :
    0 < 12 ∧ computeTotalPages 29 12 = ⌈(29 : ℚ) / (12 : ℚ)⌉₊ :=
  ⟨by decide, (C2_total_pages_is_ceil 29 12 (by decide)).1⟩

/-- Claim C4: the Previous handler (lines 126-127) decrements the page by
exactly 1 when it is above 1 and is a no-op otherwise; the Next handler
(lines 129-130) increments by exactly 1 when the page is below the total
page count and is a no-op otherwise. -/
theorem C4_navigation (page total_pages : Nat) :
    (1 < page → prevPage page = page - 1) ∧
    (page ≤ 1 → prevPage page = page) ∧
    (page < total_pages → nextPage page total_pages = page + 1) ∧
    (total_pages ≤ page → nextPage page total_pages = page) := by
  unfold prevPage nextPage
  exact ⟨fun h => if_pos h, fun h => if_neg (by omega),
    fun h => if_pos h, fun h => if_neg (by omega)⟩

/-- Witness for C4: from page 3 of 3, Previous goes to 2 and Next is a
no-op (the spec's 29-result scenario). -/
theorem C4_witness : prevPage 3 = 2 ∧ nextPage 3 3 = 3 :=
  ⟨(C4_navigation 3 3).1 (by decide), (C4_navigation 3 3).2.2.2 (by decide)⟩

/-- Claim C6: for every image-filter value (and every remote behaviour),
`met_search` with empty query text returns the empty list and issues no
network request (source lines 44-45). -/
theorem C6_empty_query_short_circuit
    (remote : SearchRequest → Except RemoteError SearchBody)
    (has_images : Option Bool) :
    met_search remote "" has_images = (Except.ok [], []) := rfl

/-- Claim C7: on a successful response, `met_search` returns exactly the
`objectIDs` field of the body, with an absent field treated as the empty
list (line 54); and the `hasImages` request parameter is present exactly
when the image filter is not the no-filter state (lines 46-50). -/
theorem C7_search_success_and_filter_param
    (remote : SearchRequest → Except RemoteError SearchBody)
    (q : String) (hi : Option Bool) (body : SearchBody)
    (hq : q ≠ "") (hr : remote (searchParams q hi) = Except.ok body) :
    met_search remote q hi
      = (Except.ok (body.objectIDs.getD []), [searchParams q hi]) ∧
    ((searchParams q hi).hasImages = none ↔ hi = none) := by
  constructor
  · simp only [met_search, if_neg hq, hr, pyOrList_eq_getD]
  · unfold searchParams
    cases hi with
    | none => simp
    | some b => cases b <;> simp

/-- Witness for C7: a non-empty query with the image filter on, against a
stub remote returning `objectIDs = [21, 45]`. -/
theorem C7_witness :
    met_search (fun _ => Except.ok ⟨some [21, 45]⟩) "cat" (some true)
      = (Except.ok [21, 45], [searchParams "cat" (some true)]) ∧
    ((searchParams "cat" (some true)).hasImages = none
      ↔ (some true : Option Bool) = none) :=
  have h := C7_search_success_and_filter_param
    (fun _ => Except.ok ⟨some [21, 45]⟩) "cat" (some true) ⟨some [21, 45]⟩
    (by decide) rfl
  ⟨h.1, h.2⟩

/-- Claim C8 (amended): `met_get_object` returns the successfully fetched
record unchanged — absent optional fields stay absent in the returned
record and never cause a failure — and the presentation layer maps the
absent fields it displays unconditionally to explicit sentinels: title to
"Untitled", artist to "Unknown", image URL to "" (lines 144-146), date to
"Unknown" (line 168). -/
theorem C8_get_object_and_defaults
    (remote : Nat → Except RemoteError ObjMeta) (oid : Nat) (m : ObjMeta)
    (h : remote oid = Except.ok m) :
    met_get_object remote oid = Except.ok m ∧
    (m.title = none → galleryTitle m = "Untitled") ∧
    (m.artistDisplayName = none → galleryArtist m = "Unknown") ∧
    (m.primaryImageSmall = none → m.primaryImage = none →
      galleryImgUrl m = "") ∧
    (m.objectDate = none → modalDate m = "Unknown") := by
  refine ⟨h, ?_, ?_, ?_, ?_⟩
  · intro h1
    simp [galleryTitle, pyOrStr, h1]
  · intro h1
    simp [galleryArtist, pyOrStr, h1]
  · intro h1 h2
    simp [galleryImgUrl, pyOrStr, h1, h2]
  · intro h1
    simp [modalDate, pyOrStr, h1]

/-- Witness for C8: fetching a record with every optional field absent
succeeds, and the presentation defaults all fire. -/
theorem C8_witness :
    met_get_object (fun _ => Except.ok blankMeta) 5 = Except.ok blankMeta ∧
    galleryTitle blankMeta = "Untitled" ∧
    galleryArtist blankMeta = "Unknown" ∧
    galleryImgUrl blankMeta = "" ∧
    modalDate blankMeta = "Unknown" :=
  have h := C8_get_object_and_defaults (fun _ => Except.ok blankMeta) 5
    blankMeta rfl
  ⟨h.1, h.2.1 rfl, h.2.2.1 rfl, h.2.2.2.1 rfl rfl, h.2.2.2.2 rfl⟩

/-- Counterexample to C8 as stated: `met_get_object` itself does not map
absent optional fields to sentinels — a successful fetch of an all-absent
record returns that record unchanged, its `title` still `none` rather
than an explicit sentinel string. The sentinel mapping happens later, in
the presentation code, and only for the fields it displays: `medium` (and
`department`) are skipped when absent, not sentinel-mapped, so "every
absent optional field" is also too broad. -/
theorem C8_counterexample :
    met_get_object (fun _ => Except.ok blankMeta) 42 = Except.ok blankMeta ∧
    blankMeta.title = none ∧ blankMeta.medium = none :=
  ⟨rfl, rfl, rfl⟩

/-- Claim C9: the export (line 86) serializes exactly the stored metadata
values, in the store's iteration order, with every field of every record
preserved (a lookup of any field name in an exported record returns
precisely the stored field), and an empty store exports as `[]`, not an
error. -/
theorem C9_export_order_and_fidelity (favs : Favorites) :
    ((favoritesValues favs).map metaFields).length = favs.length ∧
    (∀ i (h : i < favs.length),
      ((favoritesValues favs).map metaFields).get
          ⟨i, by simpa [favoritesValues] using h⟩
        = metaFields (favs.get ⟨i, h⟩).2) ∧
    (∀ m : ObjMeta,
      (metaFields m).lookup "title" = m.title ∧
      (metaFields m).lookup "artistDisplayName" = m.artistDisplayName ∧
      (metaFields m).lookup "primaryImageSmall" = m.primaryImageSmall ∧
      (metaFields m).lookup "primaryImage" = m.primaryImage ∧
      (metaFields m).lookup "objectDate" = m.objectDate ∧
      (metaFields m).lookup "medium" = m.medium ∧
      (metaFields m).lookup "department" = m.department ∧
      (metaFields m).lookup "objectURL" = m.objectURL) ∧
    exportFavoritesJSON [] = "[]" := by
  refine ⟨?_, ?_, ?_, rfl⟩
  · simp [favoritesValues]
  · intro i h
    simp [favoritesValues]
  · intro m
    obtain ⟨t, a, ps, p, d, me, de, u⟩ := m
    refine ⟨?_, ?_, ?_, ?_, ?_, ?_, ?_, ?_⟩ <;>
      cases t <;> cases a <;> cases ps <;> cases p <;> cases d <;>
        cases me <;> cases de <;> cases u <;> rfl

/-- Witness for C9: a one-entry store exports its single record with both
stored fields intact, with 2-space indentation, and the empty store
exports as the empty array. -/
theorem C9_witness :
    ((favoritesValues [(11, sampleMeta)]).map metaFields).length
      = [(11, sampleMeta)].length ∧
    ((favoritesValues [(11, sampleMeta)]).map metaFields).get ⟨0, by decide⟩
      = metaFields ([(11, sampleMeta)].get ⟨0, by decide⟩).2 ∧
    (metaFields sampleMeta).lookup "title" = sampleMeta.title ∧
    exportFavoritesJSON [] = "[]" ∧
    exportFavoritesJSON [(11, sampleMeta)]
      = "[\n  \x7b\n    \"title\": \"Irises\",\n    \"artistDisplayName\": \"Vincent van Gogh\"\n  \x7d\n]" :=
  have h := C9_export_order_and_fidelity [(11, sampleMeta)]
  ⟨h.1, h.2.1 0 (by decide), (h.2.2.1 sampleMeta).1, h.2.2.2, by decide⟩

/-- Claim C10: `currentPage ≥ 1` holds in the initial session state and is
preserved by every script rerun (query reset, Previous, Next, per-page
change, stops), so it is an invariant of every reachable state. -/
theorem C10_page_invariant (st : AppState) (h : Reachable st) : 1 ≤ st.page := by
  induction h with
  | init => exact Nat.le_refl 1
  | step q res per btn hr ih =>
    rename_i s
    simp only [scriptRun]
    by_cases hq : q = ""
    · simp only [if_pos hq]
      exact ih
    · simp only [if_neg hq]
      cases res with
      | error e => exact ih
      | ok ids =>
        by_cases hids : ids.isEmpty = true
        · simp only [hids, if_true]
          exact ih
        · simp only [hids, if_false, Bool.false_eq_true]
          have h1 : 1 ≤ (onQueryChanged q { s with per_page := per }).page := by
            unfold onQueryChanged
            split
            · exact Nat.le_refl 1
            · exact ih
          cases btn with
          | none => exact h1
          | some b =>
            cases b with
            | false =>
              have h2 : 1 ≤ prevPage
                  (onQueryChanged q { s with per_page := per }).page := by
                unfold prevPage
                split
                · omega
                · exact h1
              exact h2
            | true =>
              have h2 : 1 ≤ nextPage
                  (onQueryChanged q { s with per_page := per }).page
                  (computeTotalPages ids.length
                    (onQueryChanged q { s with per_page := per }).per_page) := by
                unfold nextPage
                split
                · omega
                · exact h1
              exact h2

/-- Witness for C10: the state reached by one search-and-Previous rerun
from the initial state has a page of at least 1. -/
theorem C10_witness :
    1 ≤ (scriptRun "dog" (Except.ok [3, 4]) 12 (some false) initState).page :=
  C10_page_invariant _
    (Reachable.step "dog" (Except.ok [3, 4]) 12 (some false) Reachable.init)

end MetExplorer
